import Mathlib

/-!
Shallow embedding of the VROOM fork under verification: the simdjson-based
input parsing (`src/utils/input_parser.cpp`), the HTTP routing wrapper
(`src/routing/http_wrapper.cpp`) and the or-opt local-search operator
interface (`src/problems/cvrp/local_search/or_opt.h`), together with
theorems settling the frozen claims about them.

Machine integers: all the integers involved are read through
`get_uint64` and stay far below 2^64 on the inputs considered, so they are
embedded as `Nat`; the one place where `size_t` wrap-around matters (the
`substr` count in `HttpWrapper::send_then_receive`) is modelled with an
explicit `% 2^64` on `Int`.

Fallible code: C++ `throw` is embedded as `Except VErr`. A C++
`catch (const std::exception&)` catches every error the embedded code can
raise (InputException, RoutingException, simdjson errors and
std::bad_optional_access all derive from std::exception).
-/

namespace Vroom

/-- JSON values as consumed by the simdjson-based parser. Numbers are the
unsigned integers read via `get_uint64`; the few `double` fields the claims
touch (coordinates, speed_factor) are only passed through, never computed
with, so they are restricted to integral values here. -/
inductive Json where
  | null : Json
  | num : Nat → Json
  | str : String → Json
  | arr : List Json → Json
  | obj : List (String × Json) → Json

/-- A parsed JSON object, as a list of key/value fields in document order. -/
abbrev JObj := List (String × Json)

/-- Errors raised by the embedded code: `input` is InputException, `routing`
is RoutingException, `json` covers simdjson type/access errors and the other
std::exception subclasses, and `badOptional` is std::bad_optional_access. -/
inductive VErr where
  | input : String → VErr
  | routing : String → VErr
  | json : String → VErr
  | badOptional : VErr
deriving DecidableEq, Repr

/-- C++ helper `HasMember(object, key)`: `object[key]` wrapped so that a
missing key yields `none`; lookup finds the first field with that key. -/
def HasMember (o : JObj) (key : String) : Option Json :=
  (o.find? (fun f => f.1 == key)).map (fun f => f.2)

/-- Whether a JSON value is an array. -/
def Json.isArr : Json → Bool
  | .arr _ => true
  | _ => false

/-- Numeric payload of a JSON value, when it is a number. -/
def Json.asNum? : Json → Option Nat
  | .num n => some n
  | _ => none

/-- simdjson `get_uint64()` on a value: fails on anything but a number. -/
def get_uint64 (j : Json) : Except VErr Nat :=
  match j with
  | .num n => .ok n
  | _ => .error (.json "incorrect_type")

/-- Reads a whole JSON array as unsigned integers, if every element is one. -/
def allNums : List Json → Option (List Nat)
  | [] => some []
  | .num n :: rest => (allNums rest).map (fun ns => n :: ns)
  | _ :: _ => none

/-- C++ `get_amount`. The "Inconsistent {} length" and "Invalid {} value"
InputExceptions are thrown inside the function's own try block and caught by
its catch-all handler, so every failure (missing key, non-array value, wrong
length, non-integer element) surfaces as the single InputException message
"Invalid <key> array.". -/
def get_amount (o : JObj) (key : String) (amount_size : Nat) :
    Except VErr (List Nat) :=
  match HasMember o key with
  | some (.arr elems) =>
      if elems.length = amount_size then
        match allNums elems with
        | some ns => .ok ns
        | none => .error (.input ("Invalid " ++ key ++ " array."))
      else .error (.input ("Invalid " ++ key ++ " array."))
  | _ => .error (.input ("Invalid " ++ key ++ " array."))

/-- C++ `get_skills`. Skills is a set in the source; insertion order and
duplicates are irrelevant to every claim, so the insertions are recorded as a
list. As in `get_amount`, the inner "Invalid skill value." InputException is
re-caught by the outer handler, so any failure surfaces as
"Invalid skills object.". -/
def get_skills (o : JObj) : Except VErr (List Nat) :=
  match HasMember o "skills" with
  | none => .ok []
  | some (.arr elems) =>
      match allNums elems with
      | some ns => .ok ns
      | none => .error (.input "Invalid skills object.")
  | some _ => .error (.input "Invalid skills object.")

/-- C++ `get_string`: empty string when the key is absent. -/
def get_string (o : JObj) (key : String) : Except VErr String :=
  match HasMember o key with
  | none => .ok ""
  | some (.str s) => .ok s
  | some _ => .error (.input ("Invalid " ++ key ++ " value."))

/-- C++ `get_double`: defaults to 1 when the key is absent. Doubles are
restricted to integral values (no claim computes with them). -/
def get_double (o : JObj) (key : String) : Except VErr Nat :=
  match HasMember o key with
  | none => .ok 1
  | some (.num n) => .ok n
  | some _ => .error (.input ("Invalid " ++ key ++ " value."))

/-- C++ `get_duration`: defaults to 0 when the key is absent. -/
def get_duration (o : JObj) (key : String) : Except VErr Nat :=
  match HasMember o key with
  | none => .ok 0
  | some (.num n) => .ok n
  | some _ => .error (.input ("Invalid " ++ key ++ " duration."))

/-- C++ `get_priority`: defaults to 0 when the key is absent. -/
def get_priority (o : JObj) : Except VErr Nat :=
  match HasMember o "priority" with
  | none => .ok 0
  | some (.num n) => .ok n
  | some _ => .error (.input "Invalid priority value.")

/-- C++ `get_value_for<T>`: optional unsigned value. -/
def get_value_for (o : JObj) (key : String) : Except VErr (Option Nat) :=
  match HasMember o key with
  | none => .ok none
  | some (.num n) => .ok (some n)
  | some _ => .error (.input ("Invalid " ++ key ++ " value."))

/-- C++ `check_id`. -/
def check_id (o : JObj) (t : String) : Except VErr Unit :=
  match HasMember o "id" with
  | none => .error (.input ("Missing id for " ++ t ++ "."))
  | some (.num _) => .ok ()
  | some _ => .error (.input ("Invalid id for " ++ t ++ "."))

/-- The source pattern `o["id"].get_uint64().value()` used when building
error messages: `some id` when the object has a numeric id. -/
def getIdNat (o : JObj) : Option Nat :=
  (HasMember o "id").bind Json.asNum?

/-- C++ `parse_coordinates`: reads `array.at(0)` and `at(1)` as numbers
(extra elements ignored); any failure is the InputException
"Invalid <key> array.". The function is only called when the key is present
(reaching the end without a return is undefined behaviour in the source); the
missing-key case is mapped to the same error. -/
def parse_coordinates (o : JObj) (key : String) : Except VErr (Nat × Nat) :=
  match HasMember o key with
  | some (.arr (.num a :: .num b :: _)) => .ok (a, b)
  | _ => .error (.input ("Invalid " ++ key ++ " array."))

/-- Time window with integer bounds; the C++ field `end` is a Lean keyword,
hence `end_`. -/
structure TimeWindow where
  start : Nat
  end_ : Nat
deriving DecidableEq, Repr

instance : Inhabited TimeWindow := ⟨⟨0, 0⟩⟩

/-- Modelled from the spec: "a universal window exists denoting
unconstrained". The TimeWindow default constructor (not under src/) produces
it; its exact bound is irrelevant to the claims, only `start < end` matters. -/
def TimeWindow.universal : TimeWindow := ⟨0, 4294967295⟩

/-- Modelled from the spec: the TimeWindow constructor (not under src/)
rejects a "time window with start ≥ end" as an InputError. -/
def TimeWindow.make (s e : Nat) : Except VErr TimeWindow :=
  if s < e then .ok ⟨s, e⟩ else .error (.input "Invalid time window.")

/-- C++ `get_time_window`: reads `at(0)`/`at(1)` as numbers and builds a
TimeWindow; every failure (including the constructor's own rejection) is
caught and re-thrown as "Invalid time-window.". -/
def get_time_window (j : Json) : Except VErr TimeWindow :=
  match j with
  | .arr (.num s :: .num e :: _) =>
      match TimeWindow.make s e with
      | .ok tw => .ok tw
      | .error _ => .error (.input "Invalid time-window.")
  | _ => .error (.input "Invalid time-window.")

/-- Modelled from the spec: TimeWindow `operator<` (not under src/) orders
windows lexicographically by (start, end); `std::sort` over it is modelled by
an insertion sort with the matching non-strict relation (any comparison sort
satisfies the sortedness guarantee `std::sort` provides). -/
def TwOrder (a b : TimeWindow) : Prop :=
  a.start < b.start ∨ (a.start = b.start ∧ a.end_ ≤ b.end_)

instance : DecidableRel TwOrder := fun a b =>
  inferInstanceAs (Decidable
    (a.start < b.start ∨ (a.start = b.start ∧ a.end_ ≤ b.end_)))

/-- C++ `get_time_windows`: requires a non-empty `time_windows` array (the
error message reads the object's id; a missing or non-numeric id there makes
the message construction itself throw a simdjson error), parses each window
and sorts them. -/
def get_time_windows (o : JObj) : Except VErr (List TimeWindow) :=
  match HasMember o "time_windows" with
  | some (.arr (e :: rest)) => do
      let tws ← (e :: rest).mapM get_time_window
      pure (List.insertionSort TwOrder tws)
  | _ =>
      match getIdNat o with
      | some id =>
          .error (.input ("Invalid time_windows array for object " ++
            Nat.repr id ++ "."))
      | none => .error (.json "incorrect_type")

/-- A vehicle break. -/
structure Break where
  id : Nat
  tws : List TimeWindow
  service : Nat
  description : String
  max_load : Option (List Nat)
deriving DecidableEq, Repr

/-- C++ `get_break`. -/
def get_break (b : JObj) (amount_size : Nat) : Except VErr Break := do
  let _ ← check_id b "break"
  let max_load ← match HasMember b "max_load" with
    | some _ => Except.map some (get_amount b "max_load" amount_size)
    | none => pure none
  match getIdNat b with
  | some id => do
      let tws ← get_time_windows b
      let service ← get_duration b "service"
      let descr ← get_string b "description"
      pure ⟨id, tws, service, descr, max_load⟩
  | none => .error (.json "incorrect_type")

/-- The comparator lambda passed to `std::ranges::sort` in
`get_vehicle_breaks`: strict lexicographic order on the first time window's
(start, end). `a.tws[0]` is embedded as `a.tws.headI`; parsed breaks always
have a non-empty `tws` (`get_time_windows` rejects empty arrays). -/
def breakCmp (a b : Break) : Bool :=
  decide (a.tws.headI.start < b.tws.headI.start) ||
    (a.tws.headI.start == b.tws.headI.start &&
      decide (a.tws.headI.end_ < b.tws.headI.end_))

/-- Sorting with a strict comparator `cmp` leaves the range sorted with
respect to `fun a b => !cmp b a`; `std::ranges::sort` is modelled by an
insertion sort over that relation (any comparison sort satisfies the
sortedness guarantee `std::ranges::sort` provides). -/
def breakLe (a b : Break) : Bool := !(breakCmp b a)

/-- The non-strict order `breakLe` denotes, in Prop form: ascending by the
(start, end) of each break's first time window. -/
def BreakOrder (a b : Break) : Prop :=
  a.tws.headI.start < b.tws.headI.start ∨
    (a.tws.headI.start = b.tws.headI.start ∧
      a.tws.headI.end_ ≤ b.tws.headI.end_)

instance : DecidableRel BreakOrder := fun a b =>
  inferInstanceAs (Decidable
    (a.tws.headI.start < b.tws.headI.start ∨
      (a.tws.headI.start = b.tws.headI.start ∧
        a.tws.headI.end_ ≤ b.tws.headI.end_)))

/-- Body of the loop over the `breaks` array in `get_vehicle_breaks`. -/
def parseBreakList (v : Json) (amount_size : Nat) : Except VErr (List Break) :=
  match v with
  | .arr elems =>
      elems.mapM (fun e =>
        match e with
        | .obj b => get_break b amount_size
        | _ => .error (.json "incorrect_type"))
  | _ => .error (.json "incorrect_type")

/-- C++ `get_vehicle_breaks`: parses the breaks (any failure in the loop is
caught and re-thrown as "Invalid breaks for vehicle <id>.", whose own id
lookup can itself throw), then sorts them with `breakCmp`. -/
def get_vehicle_breaks (o : JObj) (amount_size : Nat) :
    Except VErr (List Break) :=
  match HasMember o "breaks" with
  | none => .ok (List.insertionSort BreakOrder [])
  | some v =>
      match parseBreakList v amount_size with
      | .ok bs => .ok (List.insertionSort BreakOrder bs)
      | .error _ =>
          match getIdNat o with
          | some id =>
              .error (.input ("Invalid breaks for vehicle " ++
                Nat.repr id ++ "."))
          | none => .error (.json "incorrect_type")

/-- A task or vehicle location: matrix index, coordinates, or both. -/
inductive Location where
  | index : Nat → Location
  | coords : Nat × Nat → Location
  | both : Nat → Nat × Nat → Location
deriving DecidableEq, Repr

/-- C++ JOB_TYPE. -/
inductive JobType where
  | single
  | pickup
  | delivery
deriving DecidableEq, Repr

/-- A parsed job. -/
structure Job where
  id : Nat
  job_type : JobType
  location : Location
  setup : Nat
  service : Nat
  delivery : List Nat
  pickup : List Nat
  skills : List Nat
  priority : Nat
  tws : List TimeWindow
  description : String
deriving DecidableEq, Repr

/-- std::optional::value(): throws std::bad_optional_access when empty. -/
def optValue {α : Type} : Option α → Except VErr α
  | some a => .ok a
  | none => .error .badOptional

/-- The optional-location construction repeated throughout the parser:
an index wins over coordinates, both can be kept together. -/
def buildLocation (hasIdx : Bool) (idx : Nat) (hasCoords : Bool)
    (c : Nat × Nat) : Option Location :=
  if hasIdx then some (if hasCoords then .both idx c else .index idx)
  else if hasCoords then some (.coords c) else none

/-- Local variables of C++ `get_job` while folding over the object's fields.
`v_id` is uninitialized in the source when no "id" field occurs (undefined
behaviour); it is fixed to 0 here, which no claim observes. -/
structure JobAcc where
  v_id : Nat
  location_coordinates : Nat × Nat
  location_index : Nat
  setup : Nat
  service : Nat
  delivery : List Nat
  pickup : List Nat
  skills : List Nat
  priority : Nat
  tws : List TimeWindow
  description : String
  has_location_coords : Bool
  has_location_index : Bool
deriving DecidableEq, Repr

/-- Initial values of `get_job`'s locals (the default `tws` is the vector
containing the single universal window). -/
def jobAcc0 (amount_size : Nat) : JobAcc :=
  ⟨0, (0, 0), 0, 0, 0, List.replicate amount_size 0,
    List.replicate amount_size 0, [], 0, [TimeWindow.universal], "", false,
    false⟩

/-- One iteration of `get_job`'s loop over the JSON object's fields. -/
def jobStep (o : JObj) (amount_size : Nat) (st : JobAcc) (f : String × Json) :
    Except VErr JobAcc :=
  if f.1 == "id" then do
    let n ← get_uint64 f.2
    pure { st with v_id := n }
  else if f.1 == "location_index" then do
    let n ← get_uint64 f.2
    pure { st with has_location_index := true, location_index := n }
  else if f.1 == "location" then do
    let c ← parse_coordinates o "location"
    pure { st with has_location_coords := true, location_coordinates := c }
  else if f.1 == "setup" then do
    let d ← get_duration o "setup"
    pure { st with setup := d }
  else if f.1 == "service" then do
    let d ← get_duration o "service"
    pure { st with service := d }
  else if f.1 == "delivery" then do
    let a ← get_amount o "delivery" amount_size
    pure { st with delivery := a }
  else if f.1 == "amount" then do
    -- Deprecated key, interpreted as a delivery.
    let a ← get_amount o "amount" amount_size
    pure { st with delivery := a }
  else if f.1 == "pickup" then do
    let a ← get_amount o "pickup" amount_size
    pure { st with pickup := a }
  else if f.1 == "skills" then do
    let s ← get_skills o
    pure { st with skills := s }
  else if f.1 == "priority" then do
    let p ← get_priority o
    pure { st with priority := p }
  else if f.1 == "time_windows" then do
    let tws ← get_time_windows o
    pure { st with tws := tws }
  else if f.1 == "description" then do
    let d ← get_string o "description"
    pure { st with description := d }
  else pure st

/-- C++ `get_job`: folds over the fields, then reads `location.value()` — a
job without location data raises std::bad_optional_access (the source's
`check_location` call is commented out). The plain Job constructor produces a
single job. -/
def get_job (o : JObj) (amount_size : Nat) : Except VErr Job := do
  let st ← o.foldlM (jobStep o amount_size) (jobAcc0 amount_size)
  let loc ← optValue (buildLocation st.has_location_index st.location_index
    st.has_location_coords st.location_coordinates)
  pure ⟨st.v_id, .single, loc, st.setup, st.service, st.delivery, st.pickup,
    st.skills, st.priority, st.tws, st.description⟩

/-- Vehicle cost parameters. -/
structure VehicleCosts where
  fixed : Nat
  per_hour : Nat
  per_km : Nat
deriving DecidableEq, Repr

/-- Default profile name (defined outside src/; the spec's glossary names
car as the example travel mode and upstream uses "car"). -/
def DEFAULT_PROFILE : String := "car"

/-- Modelled from the spec: default cost per hour (constant not under src/);
its value is irrelevant to every claim. -/
def DEFAULT_COST_PER_HOUR : Nat := 3600

/-- Modelled from the spec: default cost per km (constant not under src/);
its value is irrelevant to every claim. -/
def DEFAULT_COST_PER_KM : Nat := 0

/-- A parsed vehicle. vehicle steps are parsed to an empty vector in the
source (`get_vehicle_steps` is commented out), so the element type carries no
information. -/
structure Vehicle where
  id : Nat
  start : Option Location
  end_ : Option Location
  profile : String
  capacity : List Nat
  skills : List Nat
  tw : TimeWindow
  breaks : List Break
  description : String
  costs : VehicleCosts
  speed_factor : Nat
  max_tasks : Option Nat
  max_travel_time : Option Nat
  max_distance : Option Nat
  steps : List Unit
deriving DecidableEq, Repr

/-- C++ `get_vehicle_time_window`: the `time_window` member when present,
else the default (universal) window. -/
def get_vehicle_time_window (o : JObj) : Except VErr TimeWindow :=
  match HasMember o "time_window" with
  | some v => get_time_window v
  | none => .ok TimeWindow.universal

/-- Local variables of C++ `get_vehicle` while folding over the fields.
`v_id` is uninitialized in the source when no "id" field occurs; fixed to 0
here (unobserved by the claims). NOTE (faithful to the source):
`has_start_index` and `has_end_index` are initialized to false and never
assigned anywhere in `get_vehicle`, so provided `start_index`/`end_index`
values are parsed but never used. -/
structure VehAcc where
  v_id : Nat
  start_coordinates : Nat × Nat
  start_index : Nat
  end_coordinates : Nat × Nat
  end_index : Nat
  profile : String
  capacity : List Nat
  skills : List Nat
  tw : TimeWindow
  breaks : List Break
  description : String
  speed_factor : Nat
  max_tasks : Option Nat
  max_travel_time : Option Nat
  max_distance : Option Nat
  steps : List Unit
  has_start_coords : Bool
  has_end_coords : Bool
  has_start_index : Bool
  has_end_index : Bool
  fixed : Nat
  per_hour : Nat
  per_km : Nat
deriving DecidableEq, Repr

/-- Initial values of `get_vehicle`'s locals. -/
def vehAcc0 (amount_size : Nat) : VehAcc :=
  ⟨0, (0, 0), 0, (0, 0), 0, "", List.replicate amount_size 0, [],
    TimeWindow.universal, [], "", 1, none, none, none, [], false, false,
    false, false, 0, DEFAULT_COST_PER_HOUR, DEFAULT_COST_PER_KM⟩

/-- One iteration of the loop over the `cost` sub-object. The source reads
`member.value().get_uint64()` for each recognised cost key — `member` being
the vehicle's whole `cost` field, an object — so any recognised key makes
`get_uint64` fail with a simdjson type error. -/
def costStep (costValue : Json) (st : VehAcc) (f : String × Json) :
    Except VErr VehAcc :=
  if f.1 == "fixed" then do
    let n ← get_uint64 costValue
    pure { st with fixed := n }
  else if f.1 == "per_hour" then do
    let n ← get_uint64 costValue
    pure { st with per_hour := n }
  else if f.1 == "per_km" then do
    let n ← get_uint64 costValue
    pure { st with per_km := n }
  else pure st

/-- One iteration of `get_vehicle`'s loop over the JSON object's fields.
NOTE (faithful to the source): the time-window branch tests for a field named
"tw" — not "time_window" — and then calls `get_vehicle_time_window`, which
looks the "time_window" key up; a document's `time_window` field therefore
never dispatches here, and a `tw` field dispatches but reads the absent
"time_window" key. -/
def vehStep (o : JObj) (amount_size : Nat) (st : VehAcc) (f : String × Json) :
    Except VErr VehAcc :=
  if f.1 == "id" then do
    let n ← get_uint64 f.2
    pure { st with v_id := n }
  else if f.1 == "start" then do
    let c ← parse_coordinates o "start"
    pure { st with has_start_coords := true, start_coordinates := c }
  else if f.1 == "start_index" then do
    let n ← get_uint64 f.2
    pure { st with start_index := n }
  else if f.1 == "end" then do
    let c ← parse_coordinates o "end"
    pure { st with has_end_coords := true, end_coordinates := c }
  else if f.1 == "end_index" then do
    let n ← get_uint64 f.2
    pure { st with end_index := n }
  else if f.1 == "profile" then do
    let p ← get_string o "profile"
    pure { st with profile := if p = "" then DEFAULT_PROFILE else p }
  else if f.1 == "capacity" then do
    let a ← get_amount o "capacity" amount_size
    pure { st with capacity := a }
  else if f.1 == "skills" then do
    let s ← get_skills o
    pure { st with skills := s }
  else if f.1 == "tw" then do
    let tw ← get_vehicle_time_window o
    pure { st with tw := tw }
  else if f.1 == "breaks" then do
    let bs ← get_vehicle_breaks o amount_size
    pure { st with breaks := bs }
  else if f.1 == "description" then do
    let d ← get_string o "description"
    pure { st with description := d }
  else if f.1 == "cost" then
    match f.2 with
    | .obj cfields => cfields.foldlM (costStep f.2) st
    | _ => .error (.json "incorrect_type")
  else if f.1 == "speed_factor" then do
    let s ← get_double o "speed_factor"
    pure { st with speed_factor := s }
  else if f.1 == "max_tasks" then do
    let v ← get_value_for o "max_tasks"
    pure { st with max_tasks := v }
  else if f.1 == "max_travel_time" then do
    let v ← get_value_for o "max_travel_time"
    pure { st with max_travel_time := v }
  else if f.1 == "max_distance" then do
    let v ← get_value_for o "max_distance"
    pure { st with max_distance := v }
  else if f.1 == "steps" then
    pure { st with steps := [] }
  else pure st

/-- C++ `get_vehicle`. -/
def get_vehicle (o : JObj) (amount_size : Nat) : Except VErr Vehicle := do
  let st ← o.foldlM (vehStep o amount_size) (vehAcc0 amount_size)
  let start := buildLocation st.has_start_index st.start_index
    st.has_start_coords st.start_coordinates
  let end_ := buildLocation st.has_end_index st.end_index st.has_end_coords
    st.end_coordinates
  pure ⟨st.v_id, start, end_, st.profile, st.capacity, st.skills, st.tw,
    st.breaks, st.description, ⟨st.fixed, st.per_hour, st.per_km⟩,
    st.speed_factor, st.max_tasks, st.max_travel_time, st.max_distance,
    st.steps⟩

/-- The mutable `Input` as observed through the calls `parse` makes.
`add_job`, `add_shipment` and `add_vehicle` are not under src/; modelled from
the spec: input parsing records jobs, shipments and vehicles in the Input. -/
structure InputState where
  amount_size : Nat
  geometry : Bool
  jobs : List Job
  shipments : List (Job × Job)
  vehicles : List Vehicle
deriving DecidableEq, Repr

/-- Modelled from the spec: Input::add_job records the job. -/
def InputState.add_job (st : InputState) (j : Job) : InputState :=
  { st with jobs := st.jobs ++ [j] }

/-- Modelled from the spec: Input::add_shipment records the
pickup/delivery pair. -/
def InputState.add_shipment (st : InputState) (p d : Job) : InputState :=
  { st with shipments := st.shipments ++ [(p, d)] }

/-- Modelled from the spec: Input::add_vehicle records the vehicle. -/
def InputState.add_vehicle (st : InputState) (v : Vehicle) : InputState :=
  { st with vehicles := st.vehicles ++ [v] }

/-- Outcome of running C++ `parse`: a normal return to the caller, a process
termination through `exit(code)`, or an uncaught exception. -/
inductive ParseResult where
  | ret : InputState → ParseResult
  | exited : Nat → InputState → ParseResult
  | err : VErr → ParseResult
deriving DecidableEq, Repr

/-- Whether a parse outcome is a normal return to the caller. -/
def ParseResult.isRet : ParseResult → Bool
  | .ret _ => true
  | _ => false

/-- Local variables of the shipment loop inside C++ `parse`. `pickup_id` and
`delivery_id` are uninitialized in the source (undefined behaviour, fixed to
0 here; execution always throws before they can be observed). -/
structure ShipAcc where
  amount : List Nat
  skills : List Nat
  priority : Nat
  pickup_id : Nat
  pickup_setup : Nat
  pickup_service : Nat
  pickup_tws : List TimeWindow
  pickup_description : String
  has_pickup_location_coords : Bool
  has_pickup_location_index : Bool
  pickup_location_index : Nat
  pickup_location_coordinates : Nat × Nat
  delivery_id : Nat
  delivery_setup : Nat
  delivery_service : Nat
  delivery_tws : List TimeWindow
  delivery_description : String
  has_delivery_location_coords : Bool
  has_delivery_location_index : Bool
  delivery_location_index : Nat
  delivery_location_coordinates : Nat × Nat
deriving DecidableEq, Repr

/-- Initial values of the shipment locals (amount defaults to the zero
amount of size 1, time windows to the single universal window). -/
def shipAcc0 : ShipAcc :=
  ⟨[0], [], 0, 0, 0, 0, [TimeWindow.universal], "", false, false, 0, (0, 0),
    0, 0, 0, [TimeWindow.universal], "", false, false, 0, (0, 0)⟩

/-- The inner loop over a shipment's `pickup` sub-object. NOTE (faithful to
the source): the loop computes `subkey` from `member.key()` — the key of the
enclosing shipment field, i.e. the string "pickup" — instead of
`submember.key()`, and the two location tests compare the outer `key` as
well; every condition below is therefore false on each iteration and the
loop never updates anything. The branch bodies also read from the outer
`member.value()` (the whole sub-object) where the source names it. -/
def shipPickupSub (outerKey : String) (sub : JObj) (st : ShipAcc) :
    Except VErr ShipAcc :=
  sub.foldlM (fun st _submember =>
    let subkey := outerKey
    if subkey == "id" then do
      let n ← get_uint64 (.obj sub)
      pure { st with pickup_id := n }
    else if subkey == "setup" then do
      let d ← get_duration sub "setup"
      pure { st with pickup_setup := d }
    else if subkey == "service" then do
      let d ← get_duration sub "service"
      pure { st with pickup_service := d }
    else if subkey == "time_windows" then do
      let tws ← get_time_windows sub
      pure { st with pickup_tws := tws }
    else if outerKey == "location_index" then do
      let n ← get_uint64 (.obj sub)
      pure { st with
              has_pickup_location_index := true,
              pickup_location_index := n }
    else if outerKey == "location" then do
      let c ← parse_coordinates sub "location"
      pure { st with
              has_pickup_location_coords := true,
              pickup_location_coordinates := c }
    else if subkey == "description" then do
      let d ← get_string sub "description"
      pure { st with pickup_description := d }
    else pure st) st

/-- The inner loop over a shipment's `delivery` sub-object: same dead
dispatch as `shipPickupSub` (the `subkey` compared is the outer key
"delivery"). In the source the branch bodies additionally name the variable
`pickup`, which is not in scope at that point; since no branch is ever
taken, the bodies are embedded reading from the delivery sub-object. -/
def shipDeliverySub (outerKey : String) (sub : JObj) (st : ShipAcc) :
    Except VErr ShipAcc :=
  sub.foldlM (fun st _submember =>
    let subkey := outerKey
    if subkey == "id" then do
      let n ← get_uint64 (.obj sub)
      pure { st with delivery_id := n }
    else if subkey == "setup" then do
      let d ← get_duration sub "setup"
      pure { st with delivery_setup := d }
    else if subkey == "service" then do
      let d ← get_duration sub "service"
      pure { st with delivery_service := d }
    else if subkey == "time_windows" then do
      let tws ← get_time_windows sub
      pure { st with delivery_tws := tws }
    else if outerKey == "location_index" then do
      let n ← get_uint64 (.obj sub)
      pure { st with
              has_delivery_location_index := true,
              delivery_location_index := n }
    else if outerKey == "location" then do
      let c ← parse_coordinates sub "location"
      pure { st with
              has_delivery_location_coords := true,
              delivery_location_coordinates := c }
    else if subkey == "description" then do
      let d ← get_string sub "description"
      pure { st with delivery_description := d }
    else pure st) st

/-- One iteration of the loop over a shipment object's fields. The amount
size is the hard-coded 1 of the source. -/
def shipStep (s : JObj) (st : ShipAcc) (f : String × Json) :
    Except VErr ShipAcc :=
  if f.1 == "pickup" then
    match f.2 with
    | .obj sub => shipPickupSub "pickup" sub st
    | _ => .error (.json "incorrect_type")
  else if f.1 == "delivery" then
    match f.2 with
    | .obj sub => shipDeliverySub "delivery" sub st
    | _ => .error (.json "incorrect_type")
  else if f.1 == "amount" then do
    let a ← get_amount s "amount" 1
    pure { st with amount := a }
  else if f.1 == "skills" then do
    let sk ← get_skills s
    pure { st with skills := sk }
  else if f.1 == "priority" then do
    let p ← get_priority s
    pure { st with priority := p }
  else pure st

/-- Modelled from the spec: the typed Job constructor (not under src/) pairs
a pickup with a delivery of the same amount; a pickup job carries the amount
as its pickup vector, a delivery job as its delivery vector, the other
vector being zero. -/
def mkTypedJob (id : Nat) (t : JobType) (loc : Location) (setup service :
    Nat) (amount : List Nat) (skills : List Nat) (priority : Nat)
    (tws : List TimeWindow) (description : String) : Job :=
  match t with
  | .pickup =>
      ⟨id, t, loc, setup, service, List.replicate amount.length 0, amount,
        skills, priority, tws, description⟩
  | _ =>
      ⟨id, t, loc, setup, service, amount, List.replicate amount.length 0,
        skills, priority, tws, description⟩

/-- One shipment of the `shipments` loop in C++ `parse`: fold the fields,
build the two optional locations (never populated, see the sub-loops above),
then construct the pickup job — whose `pickup_location.value()` read throws
std::bad_optional_access — the delivery job, and record the pair. -/
def parseShipment (s : JObj) (st : InputState) : Except VErr InputState := do
  let a ← s.foldlM (shipStep s) shipAcc0
  let delivery_location := buildLocation a.has_delivery_location_index
    a.delivery_location_index a.has_delivery_location_coords
    a.delivery_location_coordinates
  let pickup_location := buildLocation a.has_pickup_location_index
    a.pickup_location_index a.has_pickup_location_coords
    a.pickup_location_coordinates
  let ploc ← optValue pickup_location
  let pickupJob := mkTypedJob a.pickup_id .pickup ploc a.pickup_setup
    a.pickup_service a.amount a.skills a.priority a.pickup_tws
    a.pickup_description
  let dloc ← optValue delivery_location
  let deliveryJob := mkTypedJob a.delivery_id .delivery dloc a.delivery_setup
    a.delivery_service a.amount a.skills a.priority a.delivery_tws
    a.delivery_description
  pure (st.add_shipment pickupJob deliveryJob)

/-- One top-level field of the document inside C++ `parse`. The amount size
passed to `get_job` and `get_vehicle` is the hard-coded 1 of the source. The
`matrices` branch iterates the per-profile members comparing their keys to
"durations"/"distances"/"costs" with empty bodies, recording nothing; the
deprecated `matrix` branch iterates the rows, requiring each to be an array,
and records nothing. -/
def parseField (st : InputState) (f : String × Json) :
    Except VErr InputState :=
  if f.1 == "jobs" then
    match f.2 with
    | .arr jobs =>
        jobs.foldlM (fun st j =>
          match j with
          | .obj o => do
              let job ← get_job o 1
              pure (st.add_job job)
          | _ => .error (.json "incorrect_type")) st
    | _ => .error (.input "Error while parsing jobs.")
  else if f.1 == "shipments" then
    match f.2 with
    | .arr ships =>
        ships.foldlM (fun st sh =>
          match sh with
          | .obj o => parseShipment o st
          | _ => .error (.json "incorrect_type")) st
    | _ => .error (.input "Error while parsing shipments.")
  else if f.1 == "vehicles" then
    match f.2 with
    | .arr vehicles =>
        vehicles.foldlM (fun st v =>
          match v with
          | .obj o => do
              let veh ← get_vehicle o 1
              pure (st.add_vehicle veh)
          | _ => .error (.json "incorrect_type")) st
    | _ => .error (.input "Error while parsing vehicles.")
  else if f.1 == "matrices" then
    match f.2 with
    | .obj _profiles => pure st
    | _ => .error (.input "Error while parsing matrices.")
  else if f.1 == "matrix" then
    match f.2 with
    | .arr rows =>
        if rows.all Json.isArr then pure st
        else .error (.json "incorrect_type")
    | _ => .error (.input "Error while parsing matrix.")
  else pure st

/-- C++ `parse` (src/utils/input_parser.cpp): sets the amount size to the
hard-coded 1 and the geometry flag, requires a JSON object, folds over its
fields and then — faithful to the source — terminates the process through
`exit(0)` instead of returning to the caller. -/
def parse (doc : Json) (geometry : Bool) : ParseResult :=
  match doc with
  | .obj fields =>
      match fields.foldlM parseField
        (⟨1, geometry, [], [], []⟩ : InputState) with
      | .ok st => .exited 0 st
      | .error e => .err e
  | _ => .err (.input "Error while parsing.")

/-! Embedding of `src/routing/http_wrapper.cpp`. -/

/-- The duration and distance matrices built by `HttpWrapper::get_matrices`,
initialized square with zero entries (`Matrices(m_size)`; the initial entry
values, defined outside src/, are irrelevant: the claims only concern the
error behaviour). -/
structure Matrices where
  durations : List (List Nat)
  distances : List (List Nat)
deriving DecidableEq, Repr

/-- Square zero matrix. -/
def zeroMatrix (n : Nat) : List (List Nat) :=
  List.replicate n (List.replicate n 0)

/-- Increment position `i` of a counter vector; out-of-range positions are
left untouched (the source indexes `std::vector` unchecked, undefined
behaviour there; the claims only exercise in-range indices, enforced by the
shape hypotheses). -/
def bump : List Nat → Nat → List Nat
  | [], _ => []
  | x :: xs, 0 => (x + 1) :: xs
  | x :: xs, n + 1 => x :: bump xs n

/-- Write value `v` at row `i`, column `j` (out-of-range writes dropped, as
in `bump`). -/
def matWrite (m : List (List Nat)) (i j v : Nat) : List (List Nat) :=
  m.modify (fun row => row.set j v) i

/-- Loop state of `get_matrices`: the two optionals recording whether the
durations/distances keys were seen, the matrices being filled, and the
per-location unfound counters. -/
structure MatState where
  durations_found : Bool
  distances_found : Bool
  m : Matrices
  unfound_from : List Nat
  unfound_to : List Nat
deriving DecidableEq, Repr

/-- Initial `get_matrices` state for `m_size` locations. -/
def matState0 (m_size : Nat) : MatState :=
  ⟨false, false, ⟨zeroMatrix m_size, zeroMatrix m_size⟩,
    List.replicate m_size 0, List.replicate m_size 0⟩

/-- Record a null matrix entry at (row `i`, column `j`). -/
def MatState.addUnfound (st : MatState) (i j : Nat) : MatState :=
  { st with unfound_from := bump st.unfound_from i,
            unfound_to := bump st.unfound_to j }

/-- Record a numeric matrix entry. -/
def MatState.write (st : MatState) (isDur : Bool) (i j v : Nat) : MatState :=
  if isDur then { st with m := { st.m with durations := matWrite st.m.durations i j v } }
  else { st with m := { st.m with distances := matWrite st.m.distances i j v } }

/-- Mark the durations (or distances) optional as set. -/
def MatState.setFound (st : MatState) (isDur : Bool) : MatState :=
  if isDur then { st with durations_found := true }
  else { st with distances_found := true }

/-- Inner loop of `get_matrices` over one matrix line: null entries
(`duration_value_is_null` / `distance_value_is_null`, which both OSRM and
ORS wrappers implement as `is_null()`) bump the unfound counters; numeric
entries are stored (`get_duration_value` rounds a double; doubles are
integral here); anything else makes the value getter throw a simdjson
error. -/
def procEntries (isDur : Bool) (i : Nat) (j : Nat) (es : List Json)
    (st : MatState) : Except VErr MatState :=
  match es with
  | [] => .ok st
  | .null :: rest => procEntries isDur i (j + 1) rest (st.addUnfound i j)
  | .num v :: rest => procEntries isDur i (j + 1) rest (st.write isDur i j v)
  | _ :: _ => .error (.json "incorrect_type")

/-- Loop of `get_matrices` over the lines of a matrix value; each line must
itself be an array. -/
def procLines (isDur : Bool) (i : Nat) (ls : List Json) (st : MatState) :
    Except VErr MatState :=
  match ls with
  | [] => .ok st
  | .arr es :: rest =>
      match procEntries isDur i 0 es st with
      | .ok st2 => procLines isDur (i + 1) rest st2
      | .error e => .error e
  | _ :: _ => .error (.json "incorrect_type")

/-- One matrix-valued field: `field.value().get_array()` records the
optional as set, then the lines are processed. -/
def procMatrix (isDur : Bool) (st : MatState) (v : Json) :
    Except VErr MatState :=
  match v with
  | .arr ls => procLines isDur 0 ls (st.setFound isDur)
  | _ => .error (.json "incorrect_type")

/-- The loop of `get_matrices` over the response object's fields: a field
whose key is the wrapper's durations key fills the durations matrix, else
one matching the distances key fills the distances matrix, anything else is
skipped. -/
def matFields (durKey distKey : String) (fields : JObj) (st : MatState) :
    Except VErr MatState :=
  match fields with
  | [] => .ok st
  | f :: rest =>
      match (if f.1 == durKey then procMatrix true st f.2
             else if f.1 == distKey then procMatrix false st f.2
             else .ok st) with
      | .ok st2 => matFields durKey distKey rest st2
      | .error e => .error e

/-- Modelled from the spec: `check_unfound` (declared in http_wrapper.h, not
under src/) — an upstream matrix provider "returned a null for a required
pair" is a fatal RoutingError. It fires exactly when some location collected
a non-zero unfound count. -/
def check_unfound (st : MatState) : Except VErr Unit :=
  if st.unfound_from.sum ≠ 0 then
    .error (.routing "Unfound route(s) between locations.")
  else .ok ()

/-- C++ `HttpWrapper::get_matrices`, from the point where the back-end
response has been fetched and parsed (`build_query`/`run_query` are network
I/O and `parse_response` yields the `fields` object passed in here).
`check_response` is the wrapper-specific virtual validation run first, taken
as a parameter exactly as the base class leaves it abstract. -/
def get_matrices (check_response : JObj → Except VErr Unit)
    (durKey distKey : String) (fields : JObj) (m_size : Nat) :
    Except VErr Matrices :=
  match check_response fields with
  | .error e => .error e
  | .ok _ =>
      match matFields durKey distKey fields (matState0 m_size) with
      | .error e => .error e
      | .ok st =>
          if !st.durations_found then
            .error (.routing ("Missing " ++ durKey ++ "."))
          else if !st.distances_found then
            .error (.routing ("Missing " ++ distKey ++ "."))
          else
            match check_unfound st with
            | .error e => .error e
            | .ok _ => .ok st.m

/-- Whether a computation failed with a RoutingException. -/
def isRoutingErr {α : Type} : Except VErr α → Bool
  | .error (.routing _) => true
  | _ => false

/-- A matrix entry the value getters accept: a number or a null. -/
def entryOK : Json → Bool
  | .null => true
  | .num _ => true
  | _ => false

/-- A null matrix entry (an unfound route). -/
def entryNull : Json → Bool
  | .null => true
  | _ => false

/-- A well-shaped matrix line of width `m_size`. -/
def lineShaped (m_size : Nat) (l : Json) : Bool :=
  match l with
  | .arr es => es.length == m_size && es.all entryOK
  | _ => false

/-- Whether a matrix line holds a null entry. -/
def lineHasNull (l : Json) : Bool :=
  match l with
  | .arr es => es.any entryNull
  | _ => false

/-- Shape required of a matrix-valued JSON field for `get_matrices` to run
it without simdjson type errors and within the bounds the source asserts:
an `m_size × m_size` array of arrays whose entries are numbers or nulls. -/
def matrixShaped (m_size : Nat) : Json → Bool
  | .arr ls => ls.length == m_size && ls.all (lineShaped m_size)
  | _ => false

/-- Whether a JSON value contains a null matrix entry. -/
def hasNullEntry : Json → Bool
  | .arr ls => ls.any lineHasNull
  | _ => false

/-- Every durations/distances field of the response is well-shaped. -/
def respShaped (durKey distKey : String) (m_size : Nat) (fields : JObj) :
    Bool :=
  fields.all (fun f =>
    !(f.1 == durKey || f.1 == distKey) || matrixShaped m_size f.2)

/-- Some durations/distances field of the response holds a null entry. -/
def respHasNull (durKey distKey : String) (fields : JObj) : Bool :=
  fields.any (fun f =>
    (f.1 == durKey || f.1 == distKey) && hasNullEntry f.2)

/-- C++ header-stripping shared by `HttpWrapper::send_then_receive` and
`HttpWrapper::ssl_send_then_receive` (the two are character-for-character
identical on this part): `find('{')` and `rfind('}')` on the accumulated
response, each throwing RoutingException("Invalid routing response: …") when
absent, then `substr(start, end - start + 1)` — the count computed in
`size_t` arithmetic, hence the explicit wrap-around modulo 2^64, and clamped
by `substr` to the remaining length. -/
def strip_headers (resp : List Char) : Except VErr (List Char) :=
  match List.findIdx? (fun c => c = '{') resp with
  | none =>
      .error (.routing ("Invalid routing response: " ++ resp.asString))
  | some start =>
      match List.findIdx? (fun c => c = '}') resp.reverse with
      | none =>
          .error (.routing ("Invalid routing response: " ++ resp.asString))
      | some rk =>
          let stop := resp.length - 1 - rk
          let count : Nat :=
            (((stop : Int) - (start : Int) + 1) % ((2 : Int) ^ 64)).toNat
          .ok ((resp.drop start).take count)

/-- Index of the first occurrence of a character, C++ `find`. -/
def find_first (resp : List Char) (c : Char) : Option Nat :=
  List.findIdx? (fun x => x = c) resp

/-- Index of the last occurrence of a character, C++ `rfind`. -/
def find_last (resp : List Char) (c : Char) : Option Nat :=
  (List.findIdx? (fun x => x = c) resp.reverse).map
    (fun rk => resp.length - 1 - rk)

/-! Embedding of `src/problems/cvrp/local_search/or_opt.h`. -/

/-- The or-opt operator's parameters, from the `cvrp_or_opt` constructor
declaration: source/target vehicle and rank indices plus the reversal flag.
The `input`, `raw_solution` and `solution_state` references the constructor
also receives are handles to external state and carry no data the claims
inspect. -/
structure cvrp_or_opt where
  source_vehicle : Nat
  source_rank : Nat
  target_vehicle : Nat
  target_rank : Nat
  reverse_source_edge : Bool
deriving DecidableEq, Repr

/-- From the header: `virtual void apply() const` — `apply()` has return
type void. Its whole declared result is embedded as the unit value; the
mutation it performs happens through the stored solution reference, not
through any returned data. -/
def cvrp_or_opt.apply (_ : cvrp_or_opt) : Unit := ()

/-- Modelled from the spec: the route ids whose caches must be rebuilt after
an or-opt move are the two routes the operator is parameterized on (§4.3:
the cache is invalidated for the routes touched by a move). -/
def specRebuildIds (op : cvrp_or_opt) : List Nat :=
  [op.source_vehicle, op.target_vehicle]

/-- Claim C8 as stated, formalised: the value `apply()` returns can be
decoded into the set of route ids whose caches must be rebuilt. -/
def c8_claim : Prop :=
  ∃ decode : Unit → List Nat,
    ∀ op : cvrp_or_opt, decode op.apply = specRebuildIds op

/-- Decidable equality of Except results (not provided by core). -/
instance {ε α : Type} [DecidableEq ε] [DecidableEq α] :
    DecidableEq (Except ε α) := fun x y =>
  match x, y with
  | .ok a, .ok b =>
      if h : a = b then .isTrue (by rw [h])
      else .isFalse (by intro hc; cases hc; exact h rfl)
  | .error a, .error b =>
      if h : a = b then .isTrue (by rw [h])
      else .isFalse (by intro hc; cases hc; exact h rfl)
  | .ok _, .error _ => .isFalse (by intro hc; cases hc)
  | .error _, .ok _ => .isFalse (by intro hc; cases hc)

instance : IsTotal Break BreakOrder :=
  ⟨by intro a b; unfold BreakOrder; omega⟩

instance : IsTrans Break BreakOrder :=
  ⟨by intro a b c hab hbc; unfold BreakOrder at hab hbc ⊢; omega⟩

end Vroom

namespace Vroom

/-! Theorems settling the claims. -/

/-- C1: the claim says the amount dimension equals the length of the first
vehicle's capacity array and that mismatching arrays fail with an InputError
reporting the inconsistent length. The code instead hard-codes the amount
size to 1 (`input.set_amount_size(1)`, `get_vehicle(vehicle, 1)`): a first
vehicle with a capacity of length 2 — legal per the claim — is rejected, and
the rejection surfaces as "Invalid capacity array." because `get_amount`'s
catch-all swallows the "Inconsistent capacity length" message. This theorem
evaluates the embedded parser at that failing input. -/
theorem c1_amount_size_hardcoded_to_one :
    parse (Json.obj [("vehicles", Json.arr [Json.obj [("id", Json.num 0),
      ("capacity", Json.arr [Json.num 1, Json.num 2])]])]) false =
      ParseResult.err (.input "Invalid capacity array.") := by decide

/-- C2: the claim says the delivery job's fields come from the shipment's
`delivery` sub-object, the pickup job's from `pickup`, and that the pair is
added. In the code the sub-object loops compare the outer field key instead
of the sub-member key, so no sub-object field is ever read; both locations
stay empty and building the pickup job reads `pickup_location.value()` on an
empty optional — parsing any shipment throws std::bad_optional_access. This
theorem evaluates the embedded parser at a concrete shipment. -/
theorem c2_shipment_parsing_throws_bad_optional :
    parse (Json.obj [("shipments", Json.arr [Json.obj [
      ("pickup", Json.obj [("id", Json.num 1), ("location_index", Json.num 0),
        ("service", Json.num 2)]),
      ("delivery", Json.obj [("id", Json.num 2),
        ("location_index", Json.num 1), ("service", Json.num 5)]),
      ("amount", Json.arr [Json.num 1])]])]) false =
      ParseResult.err .badOptional := by decide

/-- C4: the claim says `parse` terminates normally and returns control to
its caller with the populated Input. The code ends `parse` with `exit(0)`:
on the well-formed document `{}` the embedded parse yields the exited-0
outcome, and no input whatsoever makes it return to the caller. -/
theorem c4_parse_exits_instead_of_returning :
    parse (Json.obj []) false =
      ParseResult.exited 0 ⟨1, false, [], [], []⟩ ∧
    ∀ (doc : Json) (g : Bool), (parse doc g).isRet = false := by
  refine ⟨by decide, ?_⟩
  intro doc g
  cases doc with
  | obj fields =>
      cases h : List.foldlM parseField
          (⟨1, g, [], [], []⟩ : InputState) fields <;>
        simp [parse, h, ParseResult.isRet]
  | null => rfl
  | num n => rfl
  | str s => rfl
  | arr l => rfl

/-- C5: the claim says the vehicle's shift window equals the `time_window`
field and the cost parameters equal the `cost` sub-object's fields. The code
dispatches the window on a key named "tw" (never "time_window"), so a
document's `time_window` field is ignored and the parsed window is always
the universal default; and the cost loop calls `get_uint64` on the whole
cost object, so any recognised cost key raises a simdjson type error instead
of setting the parameter. -/
theorem c5_vehicle_time_window_and_cost_ignored :
    Except.map Vehicle.tw (get_vehicle [("id", Json.num 7),
      ("time_window", Json.arr [Json.num 100, Json.num 200])] 1) =
      .ok TimeWindow.universal ∧
    TimeWindow.universal.start = 0 ∧
    TimeWindow.universal.end_ = 4294967295 ∧
    get_vehicle [("id", Json.num 7),
      ("cost", Json.obj [("fixed", Json.num 3)])] 1 =
      .error (.json "incorrect_type") := by decide

/-- C6: parsing a time window whose start is greater than or equal to its
end fails with an InputError, parsing never yields a TimeWindow with
start ≥ end, and the default universal window also satisfies start < end.
The rejection itself lives in the TimeWindow constructor, modelled from the
spec (it is not under src/). -/
theorem c6_parsed_time_windows_are_strict :
    (∀ (j : Json) (tw : TimeWindow),
        get_time_window j = .ok tw → tw.start < tw.end_) ∧
    (∀ s e : Nat, e ≤ s →
        get_time_window (Json.arr [Json.num s, Json.num e]) =
          .error (.input "Invalid time-window.")) ∧
    TimeWindow.universal.start < TimeWindow.universal.end_ := by
  refine ⟨?_, ?_, by decide⟩
  · intro j tw h
    unfold get_time_window at h
    split at h
    · rename_i s e rest
      unfold TimeWindow.make at h
      by_cases hlt : s < e
      · simp [hlt] at h
        subst h
        exact hlt
      · simp [hlt] at h
    · cases h
  · intro s e hse
    unfold get_time_window TimeWindow.make
    have hnot : ¬ s < e := by omega
    simp [hnot]

/-- C6 witness: the theorem applied at the concrete windows [2,9] (parses,
strict) and [5,3] (rejected). -/
theorem c6_witness :
    (TimeWindow.mk 2 9).start < (TimeWindow.mk 2 9).end_ ∧
    get_time_window (Json.arr [Json.num 5, Json.num 3]) =
      .error (.input "Invalid time-window.") :=
  ⟨c6_parsed_time_windows_are_strict.1 (Json.arr [Json.num 2, Json.num 9])
      ⟨2, 9⟩ (by decide),
    c6_parsed_time_windows_are_strict.2.1 5 3 (by decide)⟩

/-- Both alias branches of `parseField` leave the Input unchanged for every
state: the `matrix` branch validates that every row is an array and records
nothing. -/
theorem parseField_matrix_ok (st : InputState) (rows : List Json)
    (h : rows.all Json.isArr = true) :
    parseField st ("matrix", Json.arr rows) = .ok st := by
  unfold parseField
  simp [h, pure, Except.pure]

/-- The `matrices` branch of `parseField` iterates the profile object's
members with empty bodies and records nothing, for every state. -/
theorem parseField_matrices_ok (st : InputState) (o : JObj) :
    parseField st ("matrices", Json.obj o) = .ok st := by
  unfold parseField
  simp [pure, Except.pure]

/-- Replacing one element of the fold by another behaves identically when
both steps succeed as the identity on every state. -/
theorem foldlM_replace_middle {α : Type}
    (f : InputState → α → Except VErr InputState) (x y : α)
    (hx : ∀ st, f st x = .ok st) (hy : ∀ st, f st y = .ok st) :
    ∀ (pre post : List α) (st0 : InputState),
    List.foldlM f st0 (pre ++ x :: post) =
      List.foldlM f st0 (pre ++ y :: post) := by
  intro pre
  induction pre with
  | nil =>
      intro post st0
      simp only [List.nil_append, List.foldlM]
      rw [hx, hy]
  | cons p rest ih =>
      intro post st0
      simp only [List.cons_append, List.foldlM]
      cases hp : f st0 p with
      | ok s => exact ih post s
      | error e => rfl

/-- C7: for every matrix M and every document around it, parsing an input
whose top level carries the deprecated key `matrix` with value M produces
the same Input as parsing the same document with that field replaced by
`matrices.<default profile>.durations` set to M. In this code both branches
validate the value's shape and record nothing, so the equivalence holds
whatever other fields (jobs, vehicles, …) the document contains. -/
theorem c7_matrix_alias_equivalent (pre post : JObj) (M : List (List Nat))
    (g : Bool) :
    parse (Json.obj (pre ++
      ("matrix", Json.arr (M.map (fun r => Json.arr (r.map Json.num)))) ::
        post)) g =
    parse (Json.obj (pre ++
      ("matrices", Json.obj [(DEFAULT_PROFILE, Json.obj [("durations",
        Json.arr (M.map (fun r => Json.arr (r.map Json.num))))])]) ::
        post)) g := by
  have hall : (M.map (fun r => Json.arr (r.map Json.num))).all Json.isArr
      = true := by
    refine List.all_eq_true.2 (fun x hx => ?_)
    obtain ⟨r, hr, rfl⟩ := List.mem_map.1 hx
    rfl
  have hx : ∀ st : InputState, parseField st
      ("matrix", Json.arr (M.map (fun r => Json.arr (r.map Json.num)))) =
      .ok st :=
    fun st => parseField_matrix_ok st _ hall
  have hy : ∀ st : InputState, parseField st
      ("matrices", Json.obj [(DEFAULT_PROFILE, Json.obj [("durations",
        Json.arr (M.map (fun r => Json.arr (r.map Json.num))))])]) =
      .ok st :=
    fun st => parseField_matrices_ok st _
  simp only [parse]
  rw [foldlM_replace_middle parseField _ _ hx hy pre post]

/-- C7 witness: the equivalence applied at a concrete document that also
carries a vehicles and a jobs field around the 2×2 matrix [[0,7],[5,0]]. -/
theorem c7_witness :
    parse (Json.obj [("vehicles", Json.arr [Json.obj [("id", Json.num 1)]]),
      ("matrix", Json.arr [Json.arr [Json.num 0, Json.num 7],
        Json.arr [Json.num 5, Json.num 0]]),
      ("jobs", Json.arr [])]) false =
    parse (Json.obj [("vehicles", Json.arr [Json.obj [("id", Json.num 1)]]),
      ("matrices", Json.obj [(DEFAULT_PROFILE, Json.obj [("durations",
        Json.arr [Json.arr [Json.num 0, Json.num 7],
          Json.arr [Json.num 5, Json.num 0]])])]),
      ("jobs", Json.arr [])]) false :=
  c7_matrix_alias_equivalent
    [("vehicles", Json.arr [Json.obj [("id", Json.num 1)]])]
    [("jobs", Json.arr [])] [[0, 7], [5, 0]] false

/-- C8 counterexample: the claim that `apply()` returns the set of route ids
whose caches must be rebuilt is false — `apply()` is declared void, so its
return value is the same unit for every operator and cannot encode the two
different rebuild sets of two concretely different or-opt operators. -/
theorem c8_apply_return_carries_no_route_ids : ¬ c8_claim := by
  rintro ⟨decode, h⟩
  have h1 := h ⟨0, 0, 1, 0, false⟩
  have h2 := h ⟨2, 0, 3, 0, false⟩
  simp only [cvrp_or_opt.apply, specRebuildIds] at h1 h2
  rw [h1] at h2
  exact absurd h2 (by decide)

/-- C8 amended: `apply()` mutates the routes through the operator's stored
solution reference but is declared `void` — its return value is the unit
value for every operator and carries no information, in particular not the
set of route ids to rebuild. -/
theorem c8_apply_returns_void (op₁ op₂ : cvrp_or_opt) :
    op₁.apply = op₂.apply := rfl

/-- C8 witness: the amended statement applied at two concrete operators on
different vehicle pairs. -/
theorem c8_witness :
    (cvrp_or_opt.mk 0 0 1 0 false).apply =
      (cvrp_or_opt.mk 2 0 3 0 false).apply :=
  c8_apply_returns_void (cvrp_or_opt.mk 0 0 1 0 false)
    (cvrp_or_opt.mk 2 0 3 0 false)

/-- The Prop relation used to model the breaks sort is exactly the negation
of the source's strict comparator with swapped arguments, i.e. what
`std::ranges::sort` guarantees of consecutive elements. -/
theorem breakOrder_iff_not_breakCmp (a b : Break) :
    BreakOrder a b ↔ breakCmp b a = false := by
  unfold BreakOrder breakCmp
  simp
  omega

theorem breakLe_iff (a b : Break) : breakLe a b = true ↔ BreakOrder a b := by
  rw [breakLe, Bool.not_eq_true', breakOrder_iff_not_breakCmp]

/-- C9: after parsing, a vehicle's list of breaks is sorted ascending by the
(start, then end) of each break's first time window, whatever order the
breaks appear in in the input. -/
theorem c9_breaks_sorted (o : JObj) (amount_size : Nat) (bs : List Break)
    (h : get_vehicle_breaks o amount_size = .ok bs) :
    bs.Pairwise BreakOrder := by
  unfold get_vehicle_breaks at h
  split at h
  · cases h
    exact List.sorted_insertionSort BreakOrder []
  · split at h
    · cases h
      rename_i bs0 _
      exact List.sorted_insertionSort BreakOrder bs0
    · split at h <;> cases h

/-- C9 witness: a vehicle whose breaks appear out of order parses to the
sorted list. -/
theorem c9_witness :
    List.Pairwise BreakOrder
      [⟨2, [⟨10, 20⟩], 0, "", none⟩, ⟨1, [⟨50, 60⟩], 0, "", none⟩] :=
  c9_breaks_sorted
    [("id", Json.num 3), ("breaks", Json.arr [
      Json.obj [("id", Json.num 1),
        ("time_windows", Json.arr [Json.arr [Json.num 50, Json.num 60]])],
      Json.obj [("id", Json.num 2),
        ("time_windows", Json.arr [Json.arr [Json.num 10, Json.num 20]])]])]
    1
    [⟨2, [⟨10, 20⟩], 0, "", none⟩, ⟨1, [⟨50, 60⟩], 0, "", none⟩]
    (by decide)

theorem findIdx?_lt_length {α : Type} {p : α → Bool} {l : List α} {i : Nat}
    (h : List.findIdx? p l = some i) : i < l.length := by
  have hex : ∃ x ∈ l, p x = true := by
    by_contra hc
    push_neg at hc
    have hnone : List.findIdx? p l = none :=
      List.findIdx?_eq_none_iff.2 (by
        intro x hx
        have := hc x hx
        simpa using this)
    rw [hnone] at h
    cases h
  have hidx : l.findIdx p = i := by
    rw [List.findIdx_eq_findIdx?, h]
  rw [← hidx]
  exact List.findIdx_lt_length_of_exists hex

/-- C10 amended: when the response has no brace of one kind the stripping
throws RoutingException("Invalid routing response: …"); otherwise, with i
the first '\x7b' and j the last '\x7d', it returns the exact span from i
through j (empty when j + 1 = i) whenever i ≤ j + 1, and — because the
`size_t` count wraps and `substr` clamps — the whole suffix from i when the
last '\x7d' lies strictly before i - 1. -/
theorem c10_strip_headers_characterized (resp : List Char)
    (hlen : resp.length < 2 ^ 64) :
    strip_headers resp =
      match find_first resp '{', find_last resp '}' with
      | some i, some j =>
          if i ≤ j + 1 then .ok ((resp.drop i).take (j + 1 - i))
          else .ok (resp.drop i)
      | some _, none =>
          .error (.routing ("Invalid routing response: " ++ resp.asString))
      | none, _ =>
          .error (.routing ("Invalid routing response: " ++
            resp.asString)) := by
  unfold strip_headers find_first find_last
  cases h1 : List.findIdx? (fun c => c = '{') resp with
  | none => rfl
  | some start =>
      cases h2 : List.findIdx? (fun c => c = '}') resp.reverse with
      | none => rfl
      | some rk =>
          have hstart : start < resp.length := findIdx?_lt_length h1
          have hrk : rk < resp.length := by
            have := findIdx?_lt_length h2
            simpa using this
          simp only [Option.map_some']
          have h64 : ((2 : Int) ^ 64) = 18446744073709551616 := by norm_num
          have hl : resp.length < 18446744073709551616 := by
            have := hlen
            norm_num at this
            exact this
          by_cases hij : start ≤ (resp.length - 1 - rk) + 1
          · rw [if_pos hij]
            have hcount :
                ((((resp.length - 1 - rk : Nat) : Int) -
                  ((start : Nat) : Int) + 1) % ((2 : Int) ^ 64)).toNat =
                  (resp.length - 1 - rk) + 1 - start := by
              rw [h64]
              omega
            rw [hcount]
          · rw [if_neg hij]
            have hcount : (resp.drop start).length ≤
                ((((resp.length - 1 - rk : Nat) : Int) -
                  ((start : Nat) : Int) + 1) % ((2 : Int) ^ 64)).toNat := by
              rw [List.length_drop, h64]
              omega
            rw [List.take_of_length_le hcount]

/-- C10 witness: the characterization applied at the concrete response
"ab{cd}e", which strips to "{cd}". -/
theorem c10_witness :
    strip_headers (String.toList "ab\x7bcd\x7de") =
      .ok (String.toList "\x7bcd\x7d") := by
  have h := c10_strip_headers_characterized (String.toList "ab\x7bcd\x7de")
    (by decide)
  rw [h]
  decide

/-- C10 counterexample: on the response "\x7dab\x7bxy" — which does contain
a '\x7d', so the claim promises the substring from the first '\x7b' through
the last '\x7d' — the code returns "\x7bxy", which contains no '\x7d' at
all, refuting the claim as stated. -/
theorem c10_result_can_lack_closing_brace :
    strip_headers (String.toList "\x7dab\x7bxy") =
      .ok (String.toList "\x7bxy") ∧
    (String.toList "\x7bxy").contains '}' = false ∧
    (String.toList "\x7dab\x7bxy").contains '}' = true := by
  decide


theorem bump_length (l : List Nat) (i : Nat) : (bump l i).length = l.length := by
  induction l generalizing i with
  | nil => rfl
  | cons x xs ih =>
      cases i with
      | zero => rfl
      | succ n => simp [bump, ih n]

theorem bump_sum_ge (l : List Nat) (i : Nat) : l.sum ≤ (bump l i).sum := by
  induction l generalizing i with
  | nil => simp [bump]
  | cons x xs ih =>
      cases i with
      | zero => simp [bump]
      | succ n =>
          simp only [bump, List.sum_cons]
          have := ih n
          omega

theorem bump_sum_gt (l : List Nat) (i : Nat) (h : i < l.length) :
    l.sum < (bump l i).sum := by
  induction l generalizing i with
  | nil => simp at h
  | cons x xs ih =>
      cases i with
      | zero => simp [bump]
      | succ n =>
          simp only [bump, List.sum_cons]
          have := ih n (by simpa using h)
          omega

theorem procEntries_ok (isDur : Bool) (i : Nat) (es : List Json) :
    ∀ (j : Nat) (st : MatState), es.all entryOK = true →
    ∃ st2, procEntries isDur i j es st = .ok st2 ∧
      st2.unfound_from.length = st.unfound_from.length ∧
      st2.durations_found = st.durations_found ∧
      st2.distances_found = st.distances_found ∧
      st.unfound_from.sum ≤ st2.unfound_from.sum ∧
      (es.any entryNull = true → i < st.unfound_from.length →
        st.unfound_from.sum < st2.unfound_from.sum) := by
  induction es with
  | nil =>
      intro j st _
      exact ⟨st, rfl, rfl, rfl, rfl, le_refl _,
        by intro hany _; simp at hany⟩
  | cons e rest ih =>
      intro j st hall
      rw [List.all_cons, Bool.and_eq_true] at hall
      obtain ⟨hhead, hrest⟩ := hall
      cases e with
      | null =>
          obtain ⟨st2, h1, h2, h3, h4, h5, h6⟩ :=
            ih (j + 1) (st.addUnfound i j) hrest
          refine ⟨st2, ?_, ?_, h3, h4, ?_, ?_⟩
          · simpa [procEntries] using h1
          · rw [h2]
            simp [MatState.addUnfound, bump_length]
          · refine le_trans ?_ h5
            simp only [MatState.addUnfound]
            exact bump_sum_ge _ _
          · intro _ hi
            refine lt_of_lt_of_le ?_ h5
            simp only [MatState.addUnfound]
            exact bump_sum_gt _ _ hi
      | num v =>
          obtain ⟨st2, h1, h2, h3, h4, h5, h6⟩ :=
            ih (j + 1) (st.write isDur i j v) hrest
          have hwu : (st.write isDur i j v).unfound_from = st.unfound_from := by
            unfold MatState.write
            split <;> rfl
          have hwd : (st.write isDur i j v).durations_found =
              st.durations_found := by
            unfold MatState.write
            split <;> rfl
          have hwd2 : (st.write isDur i j v).distances_found =
              st.distances_found := by
            unfold MatState.write
            split <;> rfl
          rw [hwu] at h2 h5 h6
          rw [hwd] at h3
          rw [hwd2] at h4
          refine ⟨st2, ?_, h2, h3, h4, h5, ?_⟩
          · simpa [procEntries] using h1
          · intro hany hi
            have hrn : rest.any entryNull = true := by
              simpa [entryNull] using hany
            exact h6 hrn hi
      | str s => simp [entryOK] at hhead
      | arr l => simp [entryOK] at hhead
      | obj o => simp [entryOK] at hhead

theorem procLines_ok (isDur : Bool) (m_size : Nat) (ls : List Json) :
    ∀ (i : Nat) (st : MatState), ls.all (lineShaped m_size) = true →
    ∃ st2, procLines isDur i ls st = .ok st2 ∧
      st2.unfound_from.length = st.unfound_from.length ∧
      st2.durations_found = st.durations_found ∧
      st2.distances_found = st.distances_found ∧
      st.unfound_from.sum ≤ st2.unfound_from.sum ∧
      (ls.any lineHasNull = true → i + ls.length ≤ st.unfound_from.length →
        st.unfound_from.sum < st2.unfound_from.sum) := by
  induction ls with
  | nil =>
      intro i st _
      exact ⟨st, rfl, rfl, rfl, rfl, le_refl _, by intro hany; simp at hany⟩
  | cons l rest ih =>
      intro i st hall
      rw [List.all_cons, Bool.and_eq_true] at hall
      obtain ⟨hhead, hrest⟩ := hall
      cases l with
      | arr es =>
          have hes : es.all entryOK = true := by
            rw [lineShaped, Bool.and_eq_true] at hhead
            exact hhead.2
          obtain ⟨st1, e1, e2, e3, e4, e5, e6⟩ :=
            procEntries_ok isDur i es 0 st hes
          obtain ⟨st2, f1, f2, f3, f4, f5, f6⟩ := ih (i + 1) st1 hrest
          refine ⟨st2, ?_, by rw [f2, e2], by rw [f3, e3], by rw [f4, e4],
            le_trans e5 f5, ?_⟩
          · simp only [procLines, e1, f1]
          · intro hany hbound
            rw [List.any_cons, Bool.or_eq_true] at hany
            simp only [List.length_cons] at hbound
            rcases hany with hnl | hnl
            · have hin : es.any entryNull = true := by
                simpa [lineHasNull] using hnl
              have hlt : st.unfound_from.sum < st1.unfound_from.sum :=
                e6 hin (by omega)
              exact lt_of_lt_of_le hlt f5
            · have hlt : st1.unfound_from.sum < st2.unfound_from.sum := by
                refine f6 hnl ?_
                rw [e2]
                omega
              exact lt_of_le_of_lt e5 hlt
      | null => simp [lineShaped] at hhead
      | num v => simp [lineShaped] at hhead
      | str s => simp [lineShaped] at hhead
      | obj o => simp [lineShaped] at hhead

theorem setFound_unfound (st : MatState) (isDur : Bool) :
    (st.setFound isDur).unfound_from = st.unfound_from := by
  unfold MatState.setFound
  split <;> rfl

theorem setFound_dur (st : MatState) (isDur : Bool) :
    (st.setFound isDur).durations_found = (st.durations_found || isDur) := by
  unfold MatState.setFound
  cases isDur <;> simp

theorem setFound_dist (st : MatState) (isDur : Bool) :
    (st.setFound isDur).distances_found = (st.distances_found || !isDur) := by
  unfold MatState.setFound
  cases isDur <;> simp

theorem procMatrix_ok (isDur : Bool) (m_size : Nat) (st : MatState) (v : Json)
    (hshape : matrixShaped m_size v = true)
    (hlen : st.unfound_from.length = m_size) :
    ∃ st2, procMatrix isDur st v = .ok st2 ∧
      st2.unfound_from.length = m_size ∧
      st2.durations_found = (st.durations_found || isDur) ∧
      st2.distances_found = (st.distances_found || !isDur) ∧
      st.unfound_from.sum ≤ st2.unfound_from.sum ∧
      (hasNullEntry v = true → st.unfound_from.sum < st2.unfound_from.sum) := by
  cases v with
  | arr ls =>
      rw [matrixShaped, Bool.and_eq_true, beq_iff_eq] at hshape
      obtain ⟨hlsl, hall⟩ := hshape
      obtain ⟨st2, h1, h2, h3, h4, h5, h6⟩ :=
        procLines_ok isDur m_size ls 0 (st.setFound isDur) hall
      rw [setFound_unfound] at h2 h5 h6
      rw [setFound_dur] at h3
      rw [setFound_dist] at h4
      refine ⟨st2, ?_, by rw [h2, hlen], h3, h4, h5, ?_⟩
      · simp only [procMatrix]
        exact h1
      · intro hnull
        refine h6 (by simpa [hasNullEntry] using hnull) ?_
        omega
  | null => simp [matrixShaped] at hshape
  | num n => simp [matrixShaped] at hshape
  | str s => simp [matrixShaped] at hshape
  | obj o => simp [matrixShaped] at hshape



theorem matFields_ok (durKey distKey : String) (m_size : Nat)
    (fields : JObj) :
    ∀ st : MatState, respShaped durKey distKey m_size fields = true →
    st.unfound_from.length = m_size →
    ∃ st2, matFields durKey distKey fields st = .ok st2 ∧
      st2.unfound_from.length = m_size ∧
      ((∀ f ∈ fields, (f.1 == durKey) = false) →
        st2.durations_found = st.durations_found) ∧
      ((∀ f ∈ fields, (f.1 == distKey) = false) →
        st2.distances_found = st.distances_found) ∧
      st.unfound_from.sum ≤ st2.unfound_from.sum ∧
      (respHasNull durKey distKey fields = true →
        st.unfound_from.sum < st2.unfound_from.sum) := by
  induction fields with
  | nil =>
      intro st _ hlen
      exact ⟨st, rfl, hlen, fun _ => rfl, fun _ => rfl, le_refl _,
        by intro h; simp [respHasNull] at h⟩
  | cons f rest ih =>
      intro st hshape hlen
      simp only [respShaped, List.all_cons, Bool.and_eq_true] at hshape
      obtain ⟨hhead, hrest0⟩ := hshape
      have hrest : respShaped durKey distKey m_size rest = true := hrest0
      by_cases hd : (f.1 == durKey) = true
      · have hmat : matrixShaped m_size f.2 = true := by
          rw [hd] at hhead
          simpa using hhead
        obtain ⟨st1, p1, p2, p3, p4, p5, p6⟩ :=
          procMatrix_ok true m_size st f.2 hmat hlen
        obtain ⟨st2, q1, q2, q3, q4, q5, q6⟩ := ih st1 hrest p2
        refine ⟨st2, ?_, q2, ?_, ?_, le_trans p5 q5, ?_⟩
        · simp only [matFields, hd, if_true, p1, q1]
        · intro hforall
          have hc := hforall f (List.mem_cons_self f rest)
          rw [hc] at hd
          cases hd
        · intro hforall
          have hq := q4 (fun x hx => hforall x (List.mem_cons_of_mem f hx))
          rw [hq, p4]
          simp
        · intro hnull
          simp only [respHasNull, List.any_cons, Bool.or_eq_true] at hnull
          rcases hnull with hn | hn
          · have hne : hasNullEntry f.2 = true := by
              rw [Bool.and_eq_true] at hn
              exact hn.2
            exact lt_of_lt_of_le (p6 hne) q5
          · exact lt_of_le_of_lt p5 (q6 hn)
      · rw [Bool.not_eq_true] at hd
        by_cases hdist : (f.1 == distKey) = true
        · have hmat : matrixShaped m_size f.2 = true := by
            rw [hd, hdist] at hhead
            simpa using hhead
          obtain ⟨st1, p1, p2, p3, p4, p5, p6⟩ :=
            procMatrix_ok false m_size st f.2 hmat hlen
          obtain ⟨st2, q1, q2, q3, q4, q5, q6⟩ := ih st1 hrest p2
          refine ⟨st2, ?_, q2, ?_, ?_, le_trans p5 q5, ?_⟩
          · simp only [matFields, hd, hdist, Bool.false_eq_true, if_false,
              if_true, p1, q1]
          · intro hforall
            have hq := q3 (fun x hx => hforall x (List.mem_cons_of_mem f hx))
            rw [hq, p3]
            simp
          · intro hforall
            have hc := hforall f (List.mem_cons_self f rest)
            rw [hc] at hdist
            cases hdist
          · intro hnull
            simp only [respHasNull, List.any_cons, Bool.or_eq_true] at hnull
            rcases hnull with hn | hn
            · have hne : hasNullEntry f.2 = true := by
                rw [Bool.and_eq_true] at hn
                exact hn.2
              exact lt_of_lt_of_le (p6 hne) q5
            · exact lt_of_le_of_lt p5 (q6 hn)
        · rw [Bool.not_eq_true] at hdist
          obtain ⟨st2, q1, q2, q3, q4, q5, q6⟩ := ih st hrest hlen
          refine ⟨st2, ?_, q2, ?_, ?_, q5, ?_⟩
          · simp only [matFields, hd, hdist, Bool.false_eq_true, if_false]
            exact q1
          · intro hforall
            exact q3 (fun x hx => hforall x (List.mem_cons_of_mem f hx))
          · intro hforall
            exact q4 (fun x hx => hforall x (List.mem_cons_of_mem f hx))
          · intro hnull
            simp only [respHasNull, List.any_cons, Bool.or_eq_true] at hnull
            rcases hnull with hn | hn
            · rw [Bool.and_eq_true] at hn
              have hc := hn.1
              rw [hd, hdist] at hc
              simp at hc
            · exact q6 hn

/-- C3: for every travel-matrix fetch whose response passes the
wrapper-specific `check_response` and is well-shaped, if the response is
missing the durations or the distances matrix key, or contains a null entry
for a required location pair, then `get_matrices` fails with a
RoutingException instead of returning a matrix set. -/
theorem c3_get_matrices_missing_or_null_is_routing_error
    (check_response : JObj → Except VErr Unit)
    (durKey distKey : String) (fields : JObj) (m_size : Nat)
    (hcr : check_response fields = .ok ())
    (hshape : respShaped durKey distKey m_size fields = true)
    (hbad : HasMember fields durKey = none ∨ HasMember fields distKey = none ∨
      respHasNull durKey distKey fields = true) :
    isRoutingErr (get_matrices check_response durKey distKey fields m_size) =
      true := by
  have hlen0 : (matState0 m_size).unfound_from.length = m_size := by
    simp [matState0]
  obtain ⟨st2, hok, hlen2, hdfp, hdf2p, hmono, hstrict⟩ :=
    matFields_ok durKey distKey m_size fields (matState0 m_size) hshape hlen0
  have hnone_imp : ∀ (key : String), HasMember fields key = none →
      ∀ f ∈ fields, (f.1 == key) = false := by
    intro key hk f hf
    unfold HasMember at hk
    rw [Option.map_eq_none'] at hk
    have hfind := List.find?_eq_none.1 hk f hf
    simpa using hfind
  simp only [get_matrices, hcr, hok]
  rcases hbad with hm | hm | hnull
  · have hdf : st2.durations_found = false := by
      rw [hdfp (hnone_imp durKey hm)]
      rfl
    simp [hdf, isRoutingErr]
  · by_cases hdf : st2.durations_found = true
    · have hdf2 : st2.distances_found = false := by
        rw [hdf2p (hnone_imp distKey hm)]
        rfl
      simp [hdf, hdf2, isRoutingErr]
    · rw [Bool.not_eq_true] at hdf
      simp [hdf, isRoutingErr]
  · by_cases hdf : st2.durations_found = true
    · by_cases hdf2 : st2.distances_found = true
      · have h0 : (matState0 m_size).unfound_from.sum = 0 := by
          simp [matState0]
        have hsum : st2.unfound_from.sum ≠ 0 := by
          have := hstrict hnull
          omega
        simp [hdf, hdf2, check_unfound, hsum, isRoutingErr]
      · rw [Bool.not_eq_true] at hdf2
        simp [hdf, hdf2, isRoutingErr]
    · rw [Bool.not_eq_true] at hdf
      simp [hdf, isRoutingErr]

/-- C3 witness: the theorem applied at a concrete 2-location OSRM-style
response whose durations matrix holds a null entry. -/
theorem c3_witness :
    isRoutingErr (get_matrices (fun _ => .ok ()) "durations" "distances"
      [("durations", Json.arr [Json.arr [Json.num 0, Json.null],
          Json.arr [Json.num 3, Json.num 0]]),
        ("distances", Json.arr [Json.arr [Json.num 0, Json.num 1],
          Json.arr [Json.num 1, Json.num 0]])] 2) = true :=
  c3_get_matrices_missing_or_null_is_routing_error (fun _ => .ok ())
    "durations" "distances"
    [("durations", Json.arr [Json.arr [Json.num 0, Json.null],
        Json.arr [Json.num 3, Json.num 0]]),
      ("distances", Json.arr [Json.arr [Json.num 0, Json.num 1],
        Json.arr [Json.num 1, Json.num 0]])] 2
    rfl (by decide) (Or.inr (Or.inr (by decide)))

end Vroom
